import Mathlib

/-!
Verification development for the New England Airport Explorer.

The program (src/NewEnglandAirportExplorer.py) is a linear pipeline:
load a CSV of airport rows, restrict to six New England region codes and
three airport categories, map region codes to state names, sort by
elevation, blank out non-positive elevations, then filter by user
criteria and aggregate per-region / per-category statistics.

We embed the pipeline shallowly: a DataFrame row becomes the structure
`AirportRow`, a table becomes `List AirportRow`, numbers become `Rat`,
and a possibly-missing elevation (`NaN`/`None` in pandas) becomes
`Option Rat`.  Pandas-specific semantics are translated explicitly:
  * `NaN <= x` evaluates to `False`, so rows with missing elevation
    fail the `elevation_ft <= ceiling` mask in `filter_data`;
  * `sort_values(by="elevation_ft")` places `NaN` keys last and runs
    BEFORE the elevation-cleaning step in `load_data`;
  * `groupby(...)["elevation_ft"].mean()` skips missing values and is
    undefined (NaN / absent group) when no present value exists.
-/

/-- One row of the airport table (a pandas DataFrame row).  `typ` is the
`type` column (a Lean keyword).  `elevation_ft` is `none` where the
DataFrame holds `NaN`/`None`. -/
structure AirportRow where
  id : Nat
  name : String
  iso_region : String
  typ : String
  latitude_deg : Rat
  longitude_deg : Rat
  municipality : String
  scheduled_service : String
  elevation_ft : Option Rat
  deriving Repr, DecidableEq

/-- The fixed state mapping dictionary `STATES` from the source. -/
def STATES : List (String × String) :=
  [("US-CT", "Connecticut"),
   ("US-ME", "Maine"),
   ("US-MA", "Massachusetts"),
   ("US-NH", "New Hampshire"),
   ("US-RI", "Rhode Island"),
   ("US-VT", "Vermont")]

/-- `STATES.keys()`: the six recognized region codes. -/
def stateKeys : List String := STATES.map Prod.fst

/-- `STATES.values()`: the six state display names. -/
def stateNames : List String := STATES.map Prod.snd

/-- The three recognized airport categories (`type` column values). -/
def airportTypes : List String :=
  ["small_airport", "medium_airport", "large_airport"]

/-- `data["iso_region"].map(STATES)` on one code: look the code up in the
dictionary.  All rows reaching this step were already restricted to
`STATES.keys()`, so the lookup always succeeds there; on an unrecognized
code the pandas result would be `NaN`, which we render by returning the
code unchanged (that branch is dead in the pipeline). -/
def mapState (c : String) : String :=
  match STATES.find? (fun p => p.1 == c) with
  | some p => p.2
  | none => c

/-- Ordering key used by `sort_values(by="elevation_ft")`: numeric values
ascending, `NaN` placed last (`na_position='last'`, the pandas default). -/
def elevKeyLE : Option Rat → Option Rat → Prop
  | some x, some y => x ≤ y
  | some _, none => True
  | none, some _ => False
  | none, none => True

instance : DecidableRel elevKeyLE := by
  intro a b
  cases a <;> cases b <;> simp only [elevKeyLE] <;> infer_instance

/-- Row comparison for the elevation sort. -/
def rowLE (r1 r2 : AirportRow) : Prop :=
  elevKeyLE r1.elevation_ft r2.elevation_ft

instance : DecidableRel rowLE := by
  intro a b
  unfold rowLE
  infer_instance

instance : IsTotal AirportRow rowLE := by
  constructor
  intro a b
  unfold rowLE
  rcases a.elevation_ft with _ | x <;> rcases b.elevation_ft with _ | y <;>
    simp only [elevKeyLE] <;> try trivial
  exact le_total x y

instance : IsTrans AirportRow rowLE := by
  constructor
  intro a b c
  unfold rowLE
  rcases a.elevation_ft with _ | x <;> rcases b.elevation_ft with _ | y <;>
    rcases c.elevation_ft with _ | z <;> simp only [elevKeyLE] <;>
    try tauto
  exact fun h1 h2 => le_trans h1 h2

/-- `lambda x: x if x > 0 else None` applied to an elevation cell.  Note
a pandas `NaN` also fails `x > 0`, hence also becomes `None`. -/
def cleanElevation : Option Rat → Option Rat
  | some v => if v > 0 then some v else none
  | none => none

/-- The row-level effect of the `iso_region` remapping step. -/
def mapRegionRow (r : AirportRow) : AirportRow :=
  { r with iso_region := mapState r.iso_region }

/-- The row-level effect of the elevation-cleaning step. -/
def cleanRow (r : AirportRow) : AirportRow :=
  { r with elevation_ft := cleanElevation r.elevation_ft }

/-- The first four preprocessing steps of `load_data`: restrict to
recognized regions, restrict to recognized types, map region codes to
names, and sort by elevation (in that order, as in the source). -/
def preSorted (rows : List AirportRow) : List AirportRow :=
  List.insertionSort rowLE
    (((rows.filter (fun r => stateKeys.contains r.iso_region)).filter
        (fun r => airportTypes.contains r.typ)).map mapRegionRow)

/-- The successful-read branch of `load_data`: the four steps of
`preSorted` followed by the elevation-cleaning step.  Note the sort runs
BEFORE cleaning, so rows are ordered by their original stored
elevations. -/
def loadTable (rows : List AirportRow) : List AirportRow :=
  (preSorted rows).map cleanRow

/-- `load_data`'s return value.  The input file is `none` when reading
raises `FileNotFoundError`, in which case the function returns the empty
DataFrame `pd.DataFrame()`; otherwise it returns the preprocessed table. -/
def load_data (file : Option (List AirportRow)) : List AirportRow :=
  match file with
  | none => []
  | some rows => loadTable rows

/-- Whether `load_data` called `st.error` (the user-visible
`SourceNotFound` message): exactly in the `FileNotFoundError` branch. -/
def load_data_error_shown (file : Option (List AirportRow)) : Bool :=
  file.isNone

/-- The elevation mask `data["elevation_ft"] <= elevation` on one cell.
A missing elevation compared by `<=` yields `False` in pandas, embedded
here by the `none => false` branch. -/
def elevPasses (ceil : Rat) : Option Rat → Bool
  | some v => decide (v ≤ ceil)
  | none => false

/-- The boolean mask of `filter_data` on one row: the four masks are
combined with `&`. -/
def rowPasses (regions : List String) (elevation : Rat)
    (airport_types : List String) (service_filter : List String)
    (r : AirportRow) : Bool :=
  regions.contains r.iso_region &&
  elevPasses elevation r.elevation_ft &&
  airport_types.contains r.typ &&
  service_filter.contains r.scheduled_service

/-- `filter_data(data, regions, elevation, airport_types, service_filter)`:
the matching subset and its row count `len(filtered_data)`. -/
def filter_data (data : List AirportRow) (regions : List String)
    (elevation : Rat) (airport_types : List String)
    (service_filter : List String) : List AirportRow × Nat :=
  (data.filter (rowPasses regions elevation airport_types service_filter),
   (data.filter (rowPasses regions elevation airport_types
      service_filter)).length)

/-- `data.groupby("iso_region").size()` for one region name: the number
of rows carrying that region (missing elevations included). -/
def regionCount (data : List AirportRow) (region : String) : Nat :=
  (data.filter (fun r => r.iso_region == region)).length

/-- The present (non-missing) elevations of one region's rows. -/
def regionElevations (data : List AirportRow) (region : String) : List Rat :=
  (data.filter (fun r => r.iso_region == region)).filterMap
    (fun r => r.elevation_ft)

/-- `data.groupby("iso_region")["elevation_ft"].mean()` for one region:
pandas skips `NaN` cells, and the result is absent (no group) or `NaN`
when the region has no present elevation — both rendered as `none`. -/
def regionMeanElevation (data : List AirportRow) (region : String) :
    Option Rat :=
  let vs := regionElevations data region
  if vs.length = 0 then none else some (vs.sum / (vs.length : Rat))

/-- `data["type"].value_counts().get(t, 0)`: rows of one category. -/
def typeCount (data : List AirportRow) (t : String) : Nat :=
  (data.filter (fun r => r.typ == t)).length

/-- Observable trace of `main`: whether the load-error message was shown,
whether `filter_data` ran, whether the charts/metrics (aggregation) ran,
and the table handed to the presentation calls (`none` when `main`
returned early on an empty table). -/
structure MainTrace where
  errorShown : Bool
  filterRan : Bool
  aggregationRan : Bool
  presentedTable : Option (List AirportRow)
  deriving Repr, DecidableEq

/-- The `main` pipeline: load, return early if the table is empty
(`if data.empty: return`), otherwise filter and render. -/
def mainPipeline (file : Option (List AirportRow)) (regions : List String)
    (elevation : Rat) (airport_types : List String)
    (service_filter : List String) : MainTrace :=
  if (load_data file).length = 0 then
    { errorShown := load_data_error_shown file
      filterRan := false
      aggregationRan := false
      presentedTable := none }
  else
    { errorShown := load_data_error_shown file
      filterRan := true
      aggregationRan := true
      presentedTable := some (filter_data (load_data file) regions elevation
        airport_types service_filter).1 }

/-- The filtered table as produced inside `main`: `filter_data` applied to
the output of `load_data`. -/
def pipelineFiltered (file : Option (List AirportRow)) (regions : List String)
    (elevation : Rat) (airport_types service_filter : List String) :
    List AirportRow :=
  (filter_data (load_data file) regions elevation airport_types
    service_filter).1

/-- The elevation column of the loaded table, in table order. -/
def loadedElevations (rows : List AirportRow) : List (Option Rat) :=
  (loadTable rows).map (fun r => r.elevation_ft)

/-- The missing markers of an elevation column form one block at the
front (every missing cell is preceded only by missing cells). -/
def missingFirst (es : List (Option Rat)) : Prop :=
  ∀ i j : Fin es.length, i ≤ j → es.get j = none → es.get i = none

/-- The missing markers of an elevation column form one block at the
back (every missing cell is followed only by missing cells). -/
def missingLast (es : List (Option Rat)) : Prop :=
  ∀ i j : Fin es.length, i ≤ j → es.get i = none → es.get j = none

instance (es : List (Option Rat)) : Decidable (missingFirst es) := by
  unfold missingFirst
  infer_instance

instance (es : List (Option Rat)) : Decidable (missingLast es) := by
  unfold missingLast
  infer_instance

/-- Test fixture: one raw CSV row with the given id, region code,
category, service flag and stored elevation. -/
def sampleRow (i : Nat) (reg ty sv : String) (e : Option Rat) : AirportRow :=
  { id := i, name := "apt", iso_region := reg, typ := ty,
    latitude_deg := 0, longitude_deg := 0, municipality := "town",
    scheduled_service := sv, elevation_ft := e }

/-- Fixture: raw row with stored elevation `-5` (Scenario C). -/
def rawNeg : AirportRow := sampleRow 1 "US-CT" "small_airport" "no" (some (-5))

/-- Fixture: raw row with stored elevation `10`. -/
def raw10 : AirportRow := sampleRow 2 "US-CT" "small_airport" "no" (some 10)

/-- Fixture: raw row with an absent stored elevation. -/
def rawNone : AirportRow := sampleRow 3 "US-CT" "small_airport" "no" none

/-- Fixture: raw row with stored elevation `20`. -/
def raw20 : AirportRow := sampleRow 4 "US-CT" "medium_airport" "yes" (some 20)

/-- Fixture: raw row with stored elevation `30`. -/
def raw30 : AirportRow := sampleRow 5 "US-CT" "large_airport" "yes" (some 30)

/-- Fixture: raw row with an unrecognized region code. -/
def rawBad : AirportRow := sampleRow 6 "US-NY" "small_airport" "no" (some 10)

/-- Fixture: an already-loaded row with a missing elevation. -/
def ctNone : AirportRow := sampleRow 7 "Connecticut" "small_airport" "no" none

/-- Fixture: an already-loaded row with elevation `10`. -/
def ct10 : AirportRow :=
  sampleRow 8 "Connecticut" "small_airport" "no" (some 10)

/-- Fixture: `rawNeg` as it appears in the loaded table. -/
def loadedNeg : AirportRow := cleanRow (mapRegionRow rawNeg)

/-! ### Helper lemmas -/

theorem contains_iff_mem {l : List String} {a : String} :
    l.contains a = true ↔ a ∈ l :=
  List.elem_iff

theorem elevPasses_iff {ceil : Rat} {e : Option Rat} :
    elevPasses ceil e = true ↔ ∃ v, e = some v ∧ v ≤ ceil := by
  cases e <;> simp [elevPasses]

theorem cleanRow_elevation (r : AirportRow) :
    (cleanRow r).elevation_ft = cleanElevation r.elevation_ft := rfl

theorem cleanRow_region (r : AirportRow) :
    (cleanRow r).iso_region = r.iso_region := rfl

theorem cleanRow_typ (r : AirportRow) : (cleanRow r).typ = r.typ := rfl

theorem mapRegionRow_region (r : AirportRow) :
    (mapRegionRow r).iso_region = mapState r.iso_region := rfl

theorem cleanElevation_eq_some {e : Option Rat} {a : Rat} :
    cleanElevation e = some a ↔ e = some a ∧ 0 < a := by
  constructor
  · intro h
    cases e with
    | none => simp [cleanElevation] at h
    | some v =>
      by_cases hv : v > 0
      · simp [cleanElevation, hv] at h
        subst h
        exact ⟨rfl, hv⟩
      · simp [cleanElevation, hv] at h
  · rintro ⟨rfl, ha⟩
    simp [cleanElevation, ha]

theorem mem_loadTable {rows : List AirportRow} {r : AirportRow} :
    r ∈ loadTable rows ↔
      ∃ r0 ∈ rows, stateKeys.contains r0.iso_region = true ∧
        airportTypes.contains r0.typ = true ∧
        r = cleanRow (mapRegionRow r0) := by
  unfold loadTable preSorted
  simp only [List.mem_map, List.mem_insertionSort, List.mem_filter]
  constructor
  · rintro ⟨a, ⟨b, ⟨⟨hb, hp⟩, hq⟩, rfl⟩, rfl⟩
    exact ⟨b, hb, hp, hq, rfl⟩
  · rintro ⟨r0, hr0, hp, hq, rfl⟩
    exact ⟨mapRegionRow r0, ⟨r0, ⟨⟨hr0, hp⟩, hq⟩, rfl⟩, rfl⟩

theorem mapState_mem_stateNames : ∀ c ∈ stateKeys, mapState c ∈ stateNames :=
  by decide

theorem load_region_closure {rows : List AirportRow} {r : AirportRow}
    (h : r ∈ loadTable rows) : r.iso_region ∈ stateNames := by
  rcases mem_loadTable.mp h with ⟨r0, _, hreg, _, rfl⟩
  rw [cleanRow_region, mapRegionRow_region]
  exact mapState_mem_stateNames _ (contains_iff_mem.mp hreg)

theorem load_type_closure {rows : List AirportRow} {r : AirportRow}
    (h : r ∈ loadTable rows) : r.typ ∈ airportTypes := by
  rcases mem_loadTable.mp h with ⟨r0, _, _, htyp, rfl⟩
  rw [cleanRow_typ]
  exact contains_iff_mem.mp htyp

theorem length_filter_mono {p q : AirportRow → Bool} (l : List AirportRow)
    (h : ∀ r ∈ l, p r = true → q r = true) :
    (l.filter p).length ≤ (l.filter q).length := by
  rw [← List.countP_eq_length_filter, ← List.countP_eq_length_filter]
  exact List.countP_mono_left h

theorem rowPasses_mono {regions regions2 : List String}
    {elevation elevation2 : Rat} {types types2 flags flags2 : List String}
    (hr : ∀ x ∈ regions, x ∈ regions2) (he : elevation ≤ elevation2)
    (ht : ∀ x ∈ types, x ∈ types2) (hf : ∀ x ∈ flags, x ∈ flags2)
    (r : AirportRow) (h : rowPasses regions elevation types flags r = true) :
    rowPasses regions2 elevation2 types2 flags2 r = true := by
  unfold rowPasses at h ⊢
  simp only [Bool.and_eq_true] at h ⊢
  obtain ⟨⟨⟨h1, h2⟩, h3⟩, h4⟩ := h
  refine ⟨⟨⟨?_, ?_⟩, ?_⟩, ?_⟩
  · exact contains_iff_mem.mpr (hr _ (contains_iff_mem.mp h1))
  · obtain ⟨v, hv, hle⟩ := elevPasses_iff.mp h2
    exact elevPasses_iff.mpr ⟨v, hv, le_trans hle he⟩
  · exact contains_iff_mem.mpr (ht _ (contains_iff_mem.mp h3))
  · exact contains_iff_mem.mpr (hf _ (contains_iff_mem.mp h4))

/-! ### Claim theorems -/

/-- C1 (counterexample): a row with stored elevation `-5` carries the
missing marker after load and the criteria `regions = all six names,
ceiling = 2000, categories = all three, service flags = {yes, no}`
otherwise admit it, yet `filter_data` returns the empty subset: the
record is NOT included, because pandas evaluates `NaN <= 2000` to
`False`. -/
theorem missing_row_not_included_cex :
    load_data (some [rawNeg]) = [loadedNeg] ∧
    loadedNeg.elevation_ft = none ∧
    loadedNeg.iso_region ∈ stateNames ∧
    loadedNeg.typ ∈ airportTypes ∧
    loadedNeg.scheduled_service ∈ ["yes", "no"] ∧
    (filter_data (load_data (some [rawNeg])) stateNames 2000 airportTypes
      ["yes", "no"]).1 = [] := by
  decide

/-- C1 (amended): a record whose stored elevation was non-positive
carries the missing-elevation marker after load, and `filter_data` then
EXCLUDES it from the output subset for every criteria selection and
every ceiling (including 2000), because a missing elevation fails the
`<=` comparison. -/
theorem missing_elevation_rows_excluded (data : List AirportRow)
    (regions : List String) (elevation : Rat)
    (airport_types service_filter : List String) (r : AirportRow)
    (hmiss : r.elevation_ft = none) :
    r ∉ (filter_data data regions elevation airport_types
      service_filter).1 := by
  intro hmem
  have hp := (List.mem_filter.mp hmem).2
  unfold rowPasses at hp
  simp only [Bool.and_eq_true] at hp
  obtain ⟨v, hv, _⟩ := elevPasses_iff.mp hp.1.1.2
  rw [hmiss] at hv
  exact Option.noConfusion hv

/-- C1 witness: the amended exclusion at the Scenario C input. -/
theorem missing_elevation_rows_excluded_witness :
    loadedNeg ∉ (filter_data (load_data (some [rawNeg])) stateNames 2000
      airportTypes ["yes", "no"]).1 :=
  missing_elevation_rows_excluded (load_data (some [rawNeg])) stateNames
    2000 airportTypes ["yes", "no"] loadedNeg (by decide)

/-- C2: every row of the subset returned by `filter_data` satisfies the
four criteria predicates conjunctively (its region is among the allowed
regions, its elevation is present and at most the ceiling, its category
and service flag are among the allowed ones), and the returned count
equals the number of rows of the returned subset. -/
theorem filter_conjunction_and_count (data : List AirportRow)
    (regions : List String) (elevation : Rat)
    (airport_types service_filter : List String) :
    (∀ r ∈ (filter_data data regions elevation airport_types
        service_filter).1,
      r.iso_region ∈ regions ∧
      (∃ v, r.elevation_ft = some v ∧ v ≤ elevation) ∧
      r.typ ∈ airport_types ∧
      r.scheduled_service ∈ service_filter) ∧
    (filter_data data regions elevation airport_types service_filter).2 =
      (filter_data data regions elevation airport_types
        service_filter).1.length := by
  constructor
  · intro r hr
    have hp := (List.mem_filter.mp hr).2
    unfold rowPasses at hp
    simp only [Bool.and_eq_true] at hp
    obtain ⟨⟨⟨h1, h2⟩, h3⟩, h4⟩ := hp
    exact ⟨contains_iff_mem.mp h1, elevPasses_iff.mp h2,
      contains_iff_mem.mp h3, contains_iff_mem.mp h4⟩
  · rfl

/-- C2 witness: the conjunction evaluated on a concrete one-row table. -/
theorem filter_conjunction_and_count_witness :
    ct10.iso_region ∈ stateNames ∧
    (∃ v, ct10.elevation_ft = some v ∧ v ≤ (2000 : Rat)) ∧
    ct10.typ ∈ airportTypes ∧
    ct10.scheduled_service ∈ ["yes", "no"] :=
  (filter_conjunction_and_count [ct10] stateNames 2000 airportTypes
    ["yes", "no"]).1 ct10 (by decide)

/-- C3: enlarging exactly one of the four criteria inputs (allowed
regions, ceiling, allowed categories, allowed service flags) while
holding the other three fixed never decreases the count returned by
`filter_data`. -/
theorem filter_monotone (data : List AirportRow)
    (regions regions2 : List String) (elevation elevation2 : Rat)
    (airport_types airport_types2 service_filter service_filter2 :
      List String) :
    ((∀ x ∈ regions, x ∈ regions2) →
      (filter_data data regions elevation airport_types service_filter).2 ≤
      (filter_data data regions2 elevation airport_types
        service_filter).2) ∧
    (elevation ≤ elevation2 →
      (filter_data data regions elevation airport_types service_filter).2 ≤
      (filter_data data regions elevation2 airport_types
        service_filter).2) ∧
    ((∀ x ∈ airport_types, x ∈ airport_types2) →
      (filter_data data regions elevation airport_types service_filter).2 ≤
      (filter_data data regions elevation airport_types2
        service_filter).2) ∧
    ((∀ x ∈ service_filter, x ∈ service_filter2) →
      (filter_data data regions elevation airport_types service_filter).2 ≤
      (filter_data data regions elevation airport_types
        service_filter2).2) := by
  refine ⟨fun h => ?_, fun h => ?_, fun h => ?_, fun h => ?_⟩
  · exact length_filter_mono data fun r _ hp =>
      rowPasses_mono h le_rfl (fun x hx => hx) (fun x hx => hx) r hp
  · exact length_filter_mono data fun r _ hp =>
      rowPasses_mono (fun x hx => hx) h (fun x hx => hx) (fun x hx => hx) r hp
  · exact length_filter_mono data fun r _ hp =>
      rowPasses_mono (fun x hx => hx) le_rfl h (fun x hx => hx) r hp
  · exact length_filter_mono data fun r _ hp =>
      rowPasses_mono (fun x hx => hx) le_rfl (fun x hx => hx) h r hp

/-- C3 witness: the four monotonicity conclusions at concrete inputs. -/
theorem filter_monotone_witness :
    ((filter_data [ct10] ["Connecticut"] 2000 ["small_airport"]
        ["no"]).2 ≤
      (filter_data [ct10] stateNames 2000 ["small_airport"] ["no"]).2) ∧
    ((filter_data [ct10] ["Connecticut"] 2000 ["small_airport"]
        ["no"]).2 ≤
      (filter_data [ct10] ["Connecticut"] 3000 ["small_airport"]
        ["no"]).2) ∧
    ((filter_data [ct10] ["Connecticut"] 2000 ["small_airport"]
        ["no"]).2 ≤
      (filter_data [ct10] ["Connecticut"] 2000 airportTypes ["no"]).2) ∧
    ((filter_data [ct10] ["Connecticut"] 2000 ["small_airport"]
        ["no"]).2 ≤
      (filter_data [ct10] ["Connecticut"] 2000 ["small_airport"]
        ["yes", "no"]).2) :=
  ⟨(filter_monotone [ct10] ["Connecticut"] stateNames 2000 3000
      ["small_airport"] airportTypes ["no"] ["yes", "no"]).1 (by decide),
   (filter_monotone [ct10] ["Connecticut"] stateNames 2000 3000
      ["small_airport"] airportTypes ["no"] ["yes", "no"]).2.1 (by decide),
   (filter_monotone [ct10] ["Connecticut"] stateNames 2000 3000
      ["small_airport"] airportTypes ["no"] ["yes", "no"]).2.2.1
      (by decide),
   (filter_monotone [ct10] ["Connecticut"] stateNames 2000 3000
      ["small_airport"] airportTypes ["no"] ["yes", "no"]).2.2.2
      (by decide)⟩

/-- C7: every row of the table returned by `load_data` has an elevation
that is either the explicit missing marker or strictly positive; no row
carries a present elevation value at most zero. -/
theorem elevation_normalized (file : Option (List AirportRow)) :
    ∀ r ∈ load_data file,
      r.elevation_ft = none ∨ ∃ v, r.elevation_ft = some v ∧ 0 < v := by
  intro r hr
  cases file with
  | none => simp [load_data] at hr
  | some rows =>
    rcases mem_loadTable.mp hr with ⟨r0, _, _, _, rfl⟩
    rw [cleanRow_elevation]
    rcases hc : cleanElevation (mapRegionRow r0).elevation_ft with _ | v
    · exact Or.inl rfl
    · exact Or.inr ⟨v, rfl, (cleanElevation_eq_some.mp hc).2⟩

/-- C7 witness: the loaded Scenario C row carries the missing marker. -/
theorem elevation_normalized_witness :
    loadedNeg.elevation_ft = none ∨
      ∃ v, loadedNeg.elevation_ft = some v ∧ 0 < v :=
  elevation_normalized (some [rawNeg]) loadedNeg (by decide)

/-- C9: every row of the loaded table has a region name among the six
New England state names, obtained by rewriting the row's original region
code (which must be one of the six recognized codes) through the fixed
`STATES` mapping; and that mapping sends each of the six codes to its
documented state name. -/
theorem region_closure_and_mapping (rows : List AirportRow) :
    (∀ r ∈ loadTable rows,
      r.iso_region ∈ stateNames ∧
      ∃ r0 ∈ rows, stateKeys.contains r0.iso_region = true ∧
        r.iso_region = mapState r0.iso_region) ∧
    (mapState "US-CT" = "Connecticut" ∧ mapState "US-ME" = "Maine" ∧
     mapState "US-MA" = "Massachusetts" ∧
     mapState "US-NH" = "New Hampshire" ∧
     mapState "US-RI" = "Rhode Island" ∧ mapState "US-VT" = "Vermont") := by
  constructor
  · intro r hr
    rcases mem_loadTable.mp hr with ⟨r0, h0, hreg, _, rfl⟩
    rw [cleanRow_region, mapRegionRow_region]
    exact ⟨mapState_mem_stateNames _ (contains_iff_mem.mp hreg),
      r0, h0, hreg, rfl⟩
  · exact ⟨rfl, rfl, rfl, rfl, rfl, rfl⟩

/-- C9 witness: the closure and provenance at a concrete loaded row. -/
theorem region_closure_and_mapping_witness :
    loadedNeg.iso_region ∈ stateNames ∧
    ∃ r0 ∈ [rawNeg], stateKeys.contains r0.iso_region = true ∧
      loadedNeg.iso_region = mapState r0.iso_region :=
  (region_closure_and_mapping [rawNeg]).1 loadedNeg (by decide)

theorem regionElevations_filter_isSome (data : List AirportRow)
    (region : String) :
    regionElevations (data.filter (fun r => r.elevation_ft.isSome)) region =
      regionElevations data region := by
  unfold regionElevations
  rw [List.filter_filter]
  induction data with
  | nil => rfl
  | cons r t ih =>
    rcases hr : r.elevation_ft with _ | v <;>
      by_cases hreg : r.iso_region == region <;>
        simp [List.filter_cons, List.filterMap_cons, hr, hreg, ih]

/-- C6: the per-region mean elevation is invariant under discarding the
missing-elevation rows (they contribute to neither numerator nor
denominator), is the missing marker when every row of the region has a
missing elevation, and otherwise is the arithmetic mean of the present
elevation values of the region's rows. -/
theorem region_mean_excludes_missing (data : List AirportRow)
    (region : String) :
    (regionMeanElevation (data.filter (fun r => r.elevation_ft.isSome))
        region = regionMeanElevation data region) ∧
    ((∀ r ∈ data, r.iso_region = region → r.elevation_ft = none) →
      regionMeanElevation data region = none) ∧
    (regionElevations data region ≠ [] →
      regionMeanElevation data region =
        some ((regionElevations data region).sum /
          ((regionElevations data region).length : Rat))) := by
  refine ⟨?_, ?_, ?_⟩
  · unfold regionMeanElevation
    rw [regionElevations_filter_isSome]
  · intro h
    have hnil : regionElevations data region = [] := by
      unfold regionElevations
      rw [List.filterMap_eq_nil_iff]
      intro r hr
      rw [List.mem_filter] at hr
      exact h r hr.1 (by simpa using hr.2)
    unfold regionMeanElevation
    rw [hnil]
    rfl
  · intro h
    unfold regionMeanElevation
    rw [if_neg (by simpa [List.length_eq_zero] using h)]

/-- C6 witness: an all-missing region has an absent mean, and a region
with one present elevation has the mean of its present values. -/
theorem region_mean_excludes_missing_witness :
    regionMeanElevation [ctNone] "Connecticut" = none ∧
    regionMeanElevation [ct10] "Connecticut" =
      some ((regionElevations [ct10] "Connecticut").sum /
        ((regionElevations [ct10] "Connecticut").length : Rat)) :=
  ⟨(region_mean_excludes_missing [ctNone] "Connecticut").2.1 (by decide),
   (region_mean_excludes_missing [ct10] "Connecticut").2.2 (by decide)⟩

/-- C8: when the data source is absent, `load_data` shows the
source-not-found error message and returns the explicitly empty table,
and `main` runs neither `filter_data` nor any aggregation or chart step
(no crash: the pipeline is a total function returning the early-exit
trace). -/
theorem source_not_found_skips_pipeline (regions : List String)
    (elevation : Rat) (airport_types service_filter : List String) :
    load_data_error_shown none = true ∧
    load_data none = [] ∧
    (mainPipeline none regions elevation airport_types
      service_filter).filterRan = false ∧
    (mainPipeline none regions elevation airport_types
      service_filter).aggregationRan = false ∧
    (mainPipeline none regions elevation airport_types
      service_filter).presentedTable = none :=
  ⟨rfl, rfl, rfl, rfl, rfl⟩

/-- C10: when no raw row survives the region and category restrictions,
`load_data` returns the very same empty-table value as on a missing
file, and `main` skips filtering, aggregation and rendering in both
cases, so the caller cannot tell a load failure from a successfully
loaded empty dataset. -/
theorem empty_load_indistinguishable (rows : List AirportRow)
    (regions : List String) (elevation : Rat)
    (airport_types service_filter : List String)
    (h : (rows.filter (fun r => stateKeys.contains r.iso_region)).filter
      (fun r => airportTypes.contains r.typ) = []) :
    load_data (some rows) = load_data none ∧
    load_data (some rows) = [] ∧
    (mainPipeline (some rows) regions elevation airport_types
      service_filter).filterRan = false ∧
    (mainPipeline (some rows) regions elevation airport_types
      service_filter).aggregationRan = false ∧
    (mainPipeline (some rows) regions elevation airport_types
      service_filter).presentedTable =
      (mainPipeline none regions elevation airport_types
        service_filter).presentedTable ∧
    (mainPipeline none regions elevation airport_types
      service_filter).filterRan = false := by
  have hload : loadTable rows = [] := by
    unfold loadTable preSorted
    rw [h]
    rfl
  have hload2 : load_data (some rows) = [] := hload
  refine ⟨hload2, hload2, ?_, ?_, ?_, rfl⟩ <;>
    simp [mainPipeline, load_data, hload]

/-- C10 witness: a one-row file whose region code is unrecognized. -/
theorem empty_load_indistinguishable_witness :
    load_data (some [rawBad]) = load_data none ∧
    load_data (some [rawBad]) = [] ∧
    (mainPipeline (some [rawBad]) stateNames 2000 airportTypes
      ["yes", "no"]).filterRan = false ∧
    (mainPipeline (some [rawBad]) stateNames 2000 airportTypes
      ["yes", "no"]).aggregationRan = false ∧
    (mainPipeline (some [rawBad]) stateNames 2000 airportTypes
      ["yes", "no"]).presentedTable =
      (mainPipeline none stateNames 2000 airportTypes
        ["yes", "no"]).presentedTable ∧
    (mainPipeline none stateNames 2000 airportTypes
      ["yes", "no"]).filterRan = false :=
  empty_load_indistinguishable [rawBad] stateNames 2000 airportTypes
    ["yes", "no"] (by decide)

theorem sum_map_add (keys : List String) (f g : String → Nat) :
    (keys.map (fun k => f k + g k)).sum = (keys.map f).sum + (keys.map g).sum := by
  induction keys with
  | nil => rfl
  | cons k t ih =>
    simp only [List.map_cons, List.sum_cons, ih]
    omega

theorem sum_map_indicator (keys : List String) (x : String) :
    (keys.map (fun k => if x == k then 1 else 0)).sum = keys.count x := by
  induction keys with
  | nil => rfl
  | cons k t ih =>
    simp only [List.map_cons, List.sum_cons, List.count_cons, ih]
    have hc : (x == k) = (k == x) := by
      cases hxk : x == k <;> cases hkx : k == x <;> simp_all
    rw [hc]
    omega

theorem sum_counts_eq_length (keys : List String) (f : AirportRow → String)
    (l : List AirportRow) (hnd : keys.Nodup) (hall : ∀ r ∈ l, f r ∈ keys) :
    (keys.map (fun k => (l.filter (fun r => f r == k)).length)).sum =
      l.length := by
  induction l with
  | nil => simp
  | cons r t ih =>
    have hstep :
        keys.map (fun k => ((r :: t).filter (fun x => f x == k)).length) =
        keys.map (fun k =>
          (if f r == k then 1 else 0) +
            (t.filter (fun x => f x == k)).length) := by
      apply List.map_congr_left
      intro k _
      by_cases hk : f r == k <;> simp [List.filter_cons, hk, Nat.add_comm]
    rw [hstep, sum_map_add, sum_map_indicator,
      ih (fun x hx => hall x (List.mem_cons_of_mem r hx)),
      List.count_eq_one_of_mem hnd (hall r (List.mem_cons_self r t))]
    simp [Nat.add_comm]

/-- C5: over the table produced by the load-then-filter pipeline, the
per-region row counts summed over the six state names equal the total
number of filtered rows, and the three per-category counts sum to that
same total. -/
theorem aggregation_sums_to_total (file : Option (List AirportRow))
    (regions : List String) (elevation : Rat)
    (airport_types service_filter : List String) :
    ((stateNames.map
        (regionCount (pipelineFiltered file regions elevation airport_types
          service_filter))).sum =
      (pipelineFiltered file regions elevation airport_types
        service_filter).length) ∧
    (typeCount (pipelineFiltered file regions elevation airport_types
        service_filter) "small_airport" +
      typeCount (pipelineFiltered file regions elevation airport_types
        service_filter) "medium_airport" +
      typeCount (pipelineFiltered file regions elevation airport_types
        service_filter) "large_airport" =
      (pipelineFiltered file regions elevation airport_types
        service_filter).length) := by
  have hmem : ∀ r ∈ pipelineFiltered file regions elevation airport_types
      service_filter, r ∈ load_data file := by
    intro r hr
    exact (List.mem_filter.mp hr).1
  have hregion : ∀ r ∈ pipelineFiltered file regions elevation airport_types
      service_filter, r.iso_region ∈ stateNames := by
    intro r hr
    cases file with
    | none => simp [load_data] at hmem; exact absurd (hmem r hr) (by simp)
    | some rows => exact load_region_closure (hmem r hr)
  have htyp : ∀ r ∈ pipelineFiltered file regions elevation airport_types
      service_filter, r.typ ∈ airportTypes := by
    intro r hr
    cases file with
    | none => simp [load_data] at hmem; exact absurd (hmem r hr) (by simp)
    | some rows => exact load_type_closure (hmem r hr)
  constructor
  · have h := sum_counts_eq_length stateNames (fun r => r.iso_region)
      (pipelineFiltered file regions elevation airport_types service_filter)
      (by decide) hregion
    simpa [regionCount] using h
  · have h := sum_counts_eq_length airportTypes (fun r => r.typ)
      (pipelineFiltered file regions elevation airport_types service_filter)
      (by decide) htyp
    simpa [airportTypes, typeCount, Nat.add_assoc] using h

/-- C4 (counterexample): loading a file whose rows have stored elevations
10, -5 and absent yields the elevation column `[missing, 10, missing]`:
the `-5` row sorts before the positive value (it becomes missing only
AFTER the sort) while the absent value sorts last, so the missing
markers do not sit at one single consistent position (neither all first
nor all last). -/
theorem load_missing_placement_cex :
    loadedElevations [raw10, rawNeg, rawNone] = [none, some 10, none] ∧
    ¬ missingFirst (loadedElevations [raw10, rawNeg, rawNone]) ∧
    ¬ missingLast (loadedElevations [raw10, rawNeg, rawNone]) := by
  decide

theorem loadedElevations_eq (rows : List AirportRow) :
    loadedElevations rows =
      (preSorted rows).map (fun r => cleanElevation r.elevation_ft) := by
  unfold loadedElevations loadTable
  rw [List.map_map]
  rfl

theorem loadedElevations_length (rows : List AirportRow) :
    (loadedElevations rows).length = (preSorted rows).length := by
  rw [loadedElevations_eq, List.length_map]

theorem loadedElevations_get (rows : List AirportRow) (i : Nat)
    (hi : i < (loadedElevations rows).length)
    (hi2 : i < (preSorted rows).length) :
    (loadedElevations rows)[i] =
      cleanElevation ((preSorted rows)[i]).elevation_ft := by
  simp only [loadedElevations_eq, List.getElem_map]

/-- C4 (amended): the loaded table is sorted by the original stored
elevations, so its present elevations appear in non-decreasing order and
no missing marker lies strictly between two present values; but the
missing markers do NOT all sit at one single consistent position — rows
missing because of a non-positive stored value precede the present
block, rows whose stored value was absent follow it. -/
theorem load_present_elevations_sorted (rows : List AirportRow) :
    (∀ (i j : Nat) (hi : i < (loadedElevations rows).length)
      (hj : j < (loadedElevations rows).length), i < j →
      ∀ a b : Rat, (loadedElevations rows)[i] = some a →
        (loadedElevations rows)[j] = some b → a ≤ b) ∧
    (∀ (i j k : Nat) (hi : i < (loadedElevations rows).length)
      (hj : j < (loadedElevations rows).length)
      (hk : k < (loadedElevations rows).length), i < j → j < k →
      ((loadedElevations rows)[i]).isSome = true →
      ((loadedElevations rows)[k]).isSome = true →
      ((loadedElevations rows)[j]).isSome = true) := by
  have hsorted : List.Pairwise rowLE (preSorted rows) :=
    List.sorted_insertionSort rowLE _
  have hpw := List.pairwise_iff_getElem.mp hsorted
  constructor
  · intro i j hi hj hij a b ha hb
    have hi2 : i < (preSorted rows).length := by
      rw [← loadedElevations_length rows]
      exact hi
    have hj2 : j < (preSorted rows).length := by
      rw [← loadedElevations_length rows]
      exact hj
    rw [loadedElevations_get rows i hi hi2] at ha
    rw [loadedElevations_get rows j hj hj2] at hb
    have hle := hpw i j hi2 hj2 hij
    unfold rowLE at hle
    obtain ⟨ha2, hapos⟩ := cleanElevation_eq_some.mp ha
    obtain ⟨hb2, hbpos⟩ := cleanElevation_eq_some.mp hb
    rw [ha2, hb2] at hle
    exact hle
  · intro i j k hi hj hk hij hjk hsi hsk
    have hi2 : i < (preSorted rows).length := by
      rw [← loadedElevations_length rows]
      exact hi
    have hj2 : j < (preSorted rows).length := by
      rw [← loadedElevations_length rows]
      exact hj
    have hk2 : k < (preSorted rows).length := by
      rw [← loadedElevations_length rows]
      exact hk
    rw [loadedElevations_get rows i hi hi2] at hsi
    rw [loadedElevations_get rows k hk hk2] at hsk
    rw [loadedElevations_get rows j hj hj2]
    obtain ⟨a, ha⟩ := Option.isSome_iff_exists.mp hsi
    obtain ⟨c, hc⟩ := Option.isSome_iff_exists.mp hsk
    obtain ⟨ha2, hapos⟩ := cleanElevation_eq_some.mp ha
    obtain ⟨hc2, hcpos⟩ := cleanElevation_eq_some.mp hc
    have hle1 := hpw i j hi2 hj2 hij
    have hle2 := hpw j k hj2 hk2 hjk
    unfold rowLE at hle1 hle2
    cases hbe : ((preSorted rows)[j]).elevation_ft with
    | none =>
      rw [hbe, hc2] at hle2
      exact absurd hle2 (by simp [elevKeyLE])
    | some b =>
      rw [hbe, ha2] at hle1
      have hbpos : 0 < b := lt_of_lt_of_le hapos hle1
      simp [cleanElevation, hbpos]

/-- C4 witness: at a concrete three-row file the present elevations are
ordered and the middle cell of the present block is present. -/
theorem load_present_elevations_sorted_witness :
    (10 : Rat) ≤ 20 ∧
    ((loadedElevations [raw10, raw20, raw30]).get ⟨1, by decide⟩).isSome =
      true :=
  ⟨(load_present_elevations_sorted [raw10, raw20, raw30]).1 0 1 (by decide)
      (by decide) (by decide) 10 20 (by decide) (by decide),
   (load_present_elevations_sorted [raw10, raw20, raw30]).2 0 1 2
      (by decide) (by decide) (by decide) (by decide) (by decide)
      (by decide) (by decide)⟩
